import Mathlib

/-!
Verification development for the `mmagic`/`mmedit` inference front-end.

Two independent components are embedded here, following the source:

* `MMEditApi` — the `MMEdit` façade (`src/mmedit/edit.py`): a static model
  catalog, the `get_model_config` lookup and the `_get_inferencer_kwargs`
  resolution step with its override warnings.
* `MMagic` — the `BaseTranslationModel`
  (`src/mmagic/models/base_models/base_translation_model.py`): domain-keyed
  generator/discriminator dictionaries, the `translation` operation,
  `forward_train`/`forward_test`, and the `init_weights` bookkeeping over a
  module tree.

Python exceptions are modelled with `Except String`, assertion failures in
the constructor with `Option`, tensors as data tagged with a device, and
network modules as plain functions (for the functional claims) or as trees
of parameter-carrying nodes (for the weight-initialization bookkeeping).
-/

deriving instance DecidableEq for Except

namespace MMEditApi

/-- One `(config, ckpt)` row of a model's version table in `MMEdit.get_model_config`. -/
structure VersionEntry where
  config : String
  ckpt : String
deriving Repr, DecidableEq

/-- One catalog entry: category tag plus the version table, as in the
`model_dict` literal of `MMEdit.get_model_config`. -/
structure ModelEntry where
  type : String
  version : List (String × VersionEntry)
deriving Repr, DecidableEq

/-- The static `model_dict` table of `MMEdit.get_model_config`, reproduced
verbatim from `src/mmedit/edit.py`. -/
def model_dict : List (String × ModelEntry) :=
  [ ("biggan",
     { type := "conditional",
       version :=
        [ ("a", { config := "biggan/dbnet_resnet18_fpnc_1200e_icdar2015.py",
                  ckpt := "ckpt/conditional/biggan_cifar10_32x32_b25x2_500k_20210728_110906-08b61a44.pth" }),
          ("b", { config := "biggan/biggan_ajbrock-sn_8xb32-1500kiters_imagenet1k-128x128.py",
                  ckpt := "ckpt/conditional/biggan_imagenet1k_128x128_b32x8_best_fid_iter_1232000_20211111_122548-5315b13d.pth" }) ] }),
    ("styleganv1",
     { type := "unconditional",
       version :=
        [ ("a", { config := "styleganv1/styleganv1_ffhq-256x256_8xb4-25Mimgs.py",
                  ckpt := "ckpt/unconditional/styleganv1_ffhq_256_g8_25Mimg_20210407_161748-0094da86.pth" }) ] }),
    ("gca",
     { type := "matting",
       version :=
        [ ("a", { config := "gca/gca_r34_4xb10-200k_comp1k.py",
                  ckpt := "ckpt/matting/gca/gca_r34_4x10_200k_comp1k_SAD-33.38_20220615-65595f39.pth" }) ] }),
    ("aot_gan",
     { type := "inpainting",
       version :=
        [ ("a", { config := "aot_gan/aot-gan_smpgan_4xb4_places-512x512.py",
                  ckpt := "ckpt/inpainting/AOT-GAN_512x512_4x12_places_20220509-6641441b.pth" }) ] }),
    ("pix2pix",
     { type := "translation",
       version :=
        [ ("a", { config := "pix2pix/pix2pix_vanilla-unet-bn_1xb1-80kiters_facades.py",
                  ckpt := "ckpt/translation/pix2pix_vanilla_unet_bn_1x1_80k_facades_20210902_170442-c0958d50.pth" }) ] }),
    ("real_esrgan",
     { type := "restoration",
       version :=
        [ ("a", { config := "real_esrgan/realesrnet_c64b23g32_4xb12-lr2e-4-1000k_df2k-ost.py",
                  ckpt := "ckpt/restoration/realesrnet_c64b23g32_12x4_lr2e-4_1000k_df2k_ost_20210816-4ae3b5a4.pth" }) ] }),
    ("esrgan",
     { type := "restoration",
       version :=
        [ ("a", { config := "esrgan/esrgan_psnr-x4c64b23g32_1xb16-1000k_div2k.py",
                  ckpt := "ckpt/restoration/esrgan_psnr_x4c64b23g32_1x16_1000k_div2k_20200420-bf5c993c.pth" }) ] }),
    ("basicvsr",
     { type := "video_restoration",
       version :=
        [ ("a", { config := "basicvsr/basicvsr_2xb4_vimeo90k-bi.py",
                  ckpt := "" }),
          ("b", { config := "basicvsr/basicvsr_2xb4_reds4.py",
                  ckpt := "ckpt/video_restoration/basicvsr_reds4_20120409-0e599677.pth" }) ] }),
    ("flavr",
     { type := "video_interpolation",
       version :=
        [ ("a", { config := "flavr/flavr_in4out1_8xb4_vimeo90k-septuplet.py",
                  ckpt := "ckpt/video_interpolation/flavr_in4out1_g8b4_vimeo90k_septuplet_20220509-c2468995.pth" }) ] }) ]

/-- `MMEdit.get_model_config`: looks `model_name` up in `model_dict`; raises
`ValueError` with a message naming the model when it is absent. -/
def get_model_config (model_name : String) : Except String ModelEntry :=
  match model_dict.lookup model_name with
  | none => Except.error ("Model " ++ model_name ++ " is not supported.")
  | some e => Except.ok e

/-- Whether a string starts with the path separator `/`. -/
def startsWithSep (s : String) : Bool :=
  match s.data with
  | [] => false
  | c :: _ => c == '/'

/-- Whether a string ends with the path separator `/`. -/
def endsWithSep (s : String) : Bool :=
  match s.data.getLast? with
  | none => false
  | some c => c == '/'

/-- `os.path.join` restricted to two components, as used in
`_get_inferencer_kwargs`: an absolute second component replaces the first;
otherwise a separator is inserted unless the first component is empty or
already ends with one. -/
def os_path_join (a b : String) : String :=
  if startsWithSep b then b
  else if a = "" ∨ endsWithSep a then a ++ b
  else a ++ "/" ++ b

/-- How Python's f-string renders the (possibly `None`) `model` variable in
the override-warning messages. -/
def optStr : Option String → String
  | none => "None"
  | some s => s

/-- The `UserWarning` text emitted when an explicit config overrides a
catalog-resolved one. -/
def config_override_warning (model : Option String) (config : String) : String :=
  optStr model ++ "\x27s default config is overridden by " ++ config

/-- The `UserWarning` text emitted when an explicit checkpoint overrides a
catalog-resolved one. -/
def ckpt_override_warning (model : Option String) (ckpt : String) : String :=
  optStr model ++ "\x27s default checkpoint is overridden by " ++ ckpt

/-- The partial kwargs dictionary built by `_get_inferencer_kwargs`; every
field is present only if some step set it. -/
structure Kwargs where
  type : Option String
  config : Option String
  ckpt : Option String
deriving Repr, DecidableEq

/-- Step 1 of `MMEdit._get_inferencer_kwargs`: when a model name is given,
resolve it through `get_model_config` and read the `(config, ckpt)` pair for
`model_version` from its version table, joining the config path under
`configs/`.  An unknown model name raises `ValueError`; an unknown version
label raises an unguarded `KeyError`. -/
def kwargs_from_model (model : Option String) (model_version : String) :
    Except String Kwargs :=
  match model with
  | none => Except.ok { type := none, config := none, ckpt := none }
  | some m => do
      let cfgs ← get_model_config m
      match cfgs.version.lookup model_version with
      | none => Except.error ("KeyError: " ++ model_version)
      | some v =>
          Except.ok { type := some cfgs.type,
                      config := some (os_path_join ("configs/") v.config),
                      ckpt := some v.ckpt }

/-- `MMEdit._get_inferencer_kwargs`.  Returns the kwargs dictionary together
with the list of warnings emitted (in order): an explicit `config`/`ckpt`
overwrites an already-set field, warning first when it does. -/
def get_inferencer_kwargs (model : Option String) (model_version : String)
    (config : Option String) (ckpt : Option String) :
    Except String (Kwargs × List String) := do
  let kw0 : Kwargs ← kwargs_from_model model model_version
  let (kw1, w1) : Kwargs × List String :=
    match config with
    | none => (kw0, ([] : List String))
    | some c =>
        if kw0.config.isSome then
          ({ kw0 with config := some c }, [config_override_warning model c])
        else
          ({ kw0 with config := some c }, [])
  let (kw2, w2) : Kwargs × List String :=
    match ckpt with
    | none => (kw1, ([] : List String))
    | some k =>
        if kw1.ckpt.isSome then
          ({ kw1 with ckpt := some k }, [ckpt_override_warning model k])
        else
          ({ kw1 with ckpt := some k }, [])
  pure (kw2, w1 ++ w2)

end MMEditApi

namespace MMagic

/-- Device tag of a tensor: host memory (`cpu`) or the accelerator the model
runs on. -/
inductive Device where
  | cpu
  | cuda
deriving Repr, DecidableEq

/-- A tensor: payload data tagged with the device it lives on. -/
structure Tensor (α : Type) where
  data : α
  device : Device
deriving Repr, DecidableEq

/-- `torch.Tensor.cpu()`: move the tensor to host memory, payload
unchanged. -/
def Tensor.cpu {α : Type} (t : Tensor α) : Tensor α :=
  { t with device := Device.cpu }

/-- A network module, for the functional claims: maps an input tensor and
the extra keyword arguments to an output tensor. -/
def Net (α κ : Type) : Type := Tensor α → κ → Tensor α

/-- `BaseTranslationModel` state after construction
(`src/mmagic/models/base_models/base_translation_model.py`). -/
structure BaseTranslationModel (α κ π : Type) where
  default_domain : String
  reachable_domains : List String
  related_domains : List String
  generators : List (String × Net α κ)
  discriminators : Option (List (String × Net α κ))
  data_preprocessor : π
  discriminator_steps : Nat
  disc_init_steps : Nat
  real_img_key : String
  loss_config : List (String × Int)

/-- `BaseTranslationModel.__init__`: checks the two asserted invariants
(`default_domain` reachable; reachable domains contained in the related
ones), then builds one generator per reachable domain from the generator
specification via the registry (`build`), and one discriminator per
reachable domain when a discriminator specification is given, else leaves
the discriminator collection absent.  An assertion failure is `none`. -/
def mkBaseTranslationModel {α κ π σ : Type} (build : σ → Net α κ)
    (generator : σ) (discriminator : Option σ)
    (default_domain : String)
    (reachable_domains related_domains : List String)
    (data_preprocessor : π)
    (discriminator_steps disc_init_steps : Nat)
    (real_img_key : String)
    (loss_config : Option (List (String × Int))) :
    Option (BaseTranslationModel α κ π) :=
  if default_domain ∈ reachable_domains ∧ ∀ d ∈ reachable_domains, d ∈ related_domains then
    some { default_domain := default_domain,
           reachable_domains := reachable_domains,
           related_domains := related_domains,
           generators := reachable_domains.map (fun d => (d, build generator)),
           discriminators :=
             discriminator.map
               (fun dsc => reachable_domains.map (fun d => (d, build dsc))),
           data_preprocessor := data_preprocessor,
           discriminator_steps := discriminator_steps,
           disc_init_steps := disc_init_steps,
           real_img_key := real_img_key,
           loss_config := loss_config.getD [] }
  else none

/-- A module collection as seen through an optional distributed-parallel
wrapper (`MMDistributedDataParallel`): either the bare collection, or the
wrapped one whose `.module` field is the inner collection. -/
inductive Wrapped (μ : Type) where
  | direct (m : μ)
  | wrapped (m : μ)

/-- `mmengine.model.is_model_wrapper`. -/
def is_model_wrapper {μ : Type} : Wrapped μ → Bool
  | .direct _ => false
  | .wrapped _ => true

/-- `BaseTranslationModel.get_module`: if the collection is wrapped, return
the inner `.module`; otherwise return it unchanged. -/
def get_module {μ : Type} (m : Wrapped μ) : μ :=
  match m with
  | .wrapped x => x
  | .direct x => x

/-- Python `repr` of a list of strings, as interpolated into the assertion
message by the f-string. -/
def pyListRepr (l : List String) : String :=
  "[" ++ String.intercalate (", ") (l.map (fun s => "\x27" ++ s ++ "\x27")) ++ "]"

/-- The assertion message of `_get_target_generator` and
`_get_target_discriminator`; the backslash line continuation in the source
keeps the next line's indentation inside the message. -/
def not_reachable_msg (domain : String) (reachable : List String) : String :=
  domain ++ " domain is not reachable, available domain list is            "
    ++ pyListRepr reachable

/-- `BaseTranslationModel.is_domain_reachable`: membership test against the
reachable domains. -/
def BaseTranslationModel.is_domain_reachable {α κ π : Type}
    (m : BaseTranslationModel α κ π) (domain : String) : Bool :=
  m.reachable_domains.contains domain

/-- `BaseTranslationModel.get_other_domains`:
`list(set(related_domains) - set([domain]))`.  The Python result is a list
in unspecified (hash) order; its content is the finite set below. -/
def BaseTranslationModel.get_other_domains {α κ π : Type}
    (m : BaseTranslationModel α κ π) (domain : String) : Finset String :=
  m.related_domains.toFinset \ ({domain} : Finset String)

/-- `BaseTranslationModel._get_target_generator`: assert the domain is
reachable (an `AssertionError` carries `not_reachable_msg`), then index the
(possibly wrapper-unwrapped) generator dictionary. -/
def BaseTranslationModel.get_target_generator {α κ π : Type}
    (m : BaseTranslationModel α κ π) (domain : String) :
    Except String (Net α κ) :=
  if m.is_domain_reachable domain then
    match (get_module (Wrapped.direct m.generators)).lookup domain with
    | some g => Except.ok g
    | none => Except.error ("KeyError: " ++ domain)
  else
    Except.error (not_reachable_msg domain m.reachable_domains)

/-- `BaseTranslationModel._get_target_discriminator`: same assertion, then
index the discriminator dictionary; indexing an absent (`None`) collection
is the caller error `TypeError`. -/
def BaseTranslationModel.get_target_discriminator {α κ π : Type}
    (m : BaseTranslationModel α κ π) (domain : String) :
    Except String (Net α κ) :=
  if m.is_domain_reachable domain then
    match m.discriminators with
    | none => Except.error ("TypeError: NoneType object is not subscriptable")
    | some ds =>
        match (get_module (Wrapped.direct ds)).lookup domain with
        | some d => Except.ok d
        | none => Except.error ("KeyError: " ++ domain)
  else
    Except.error (not_reachable_msg domain m.reachable_domains)

/-- `BaseTranslationModel.translation`: default the target domain to
`default_domain` when none is given, look the generator up and apply it to
the image and extra arguments. -/
def BaseTranslationModel.translation {α κ π : Type}
    (m : BaseTranslationModel α κ π) (image : Tensor α)
    (target_domain : Option String) (kwargs : κ) :
    Except String (Tensor α) :=
  let td := match target_domain with
    | none => m.default_domain
    | some t => t
  (m.get_target_generator td).map (fun g => g image kwargs)

/-- The `dict(source=..., target=...)` returned by the forward functions. -/
structure ForwardResults (α : Type) where
  source : Tensor α
  target : Tensor α
deriving Repr, DecidableEq

/-- `BaseTranslationModel.forward_train`: the source image unchanged and the
translated target. -/
def BaseTranslationModel.forward_train {α κ π : Type}
    (m : BaseTranslationModel α κ π) (img : Tensor α)
    (target_domain : Option String) (kwargs : κ) :
    Except String (ForwardResults α) :=
  (m.translation img target_domain kwargs).map
    (fun target => { source := img, target := target })

/-- `BaseTranslationModel.forward_test`: like `forward_train`, but source and
target are moved to host memory (`.cpu()`). -/
def BaseTranslationModel.forward_test {α κ π : Type}
    (m : BaseTranslationModel α κ π) (img : Tensor α)
    (target_domain : Option String) (kwargs : κ) :
    Except String (ForwardResults α) :=
  (m.translation img target_domain kwargs).map
    (fun target => { source := img.cpu, target := target.cpu })

/-- `BaseTranslationModel.forward`: dispatch on `test_mode`. -/
def BaseTranslationModel.forward {α κ π : Type}
    (m : BaseTranslationModel α κ π) (img : Tensor α) (test_mode : Bool)
    (target_domain : Option String) (kwargs : κ) :
    Except String (ForwardResults α) :=
  if test_mode then m.forward_test img target_domain kwargs
  else m.forward_train img target_domain kwargs

end MMagic

namespace MMagic

/-- One per-parameter record in `_params_init_info`: the provenance note
(`init_info`) and the pre-initialization mean (`tmp_mean_value`).  Parameter
tensors are modelled as named integer scalars, so the mean of a parameter is
its value. -/
structure ParamInitInfo where
  init_info : String
  tmp_mean_value : Int
deriving Repr, DecidableEq

/-- The `_params_init_info` map, keyed by parameter (name). -/
abbrev InfoMap : Type := List (String × ParamInitInfo)

mutual
/-- A network module tree node, for the weight-initialization bookkeeping:
the optional `_params_init_info` attribute, the module's own named
parameters, and its child submodules. -/
inductive NNModule : Type where
  | node (info : Option InfoMap) (params : List (String × Int))
         (children : NNModuleList)

/-- A list of sibling submodules. -/
inductive NNModuleList : Type where
  | nil
  | cons (m : NNModule) (ms : NNModuleList)
end

mutual
/-- All named parameters of a module and its submodules
(`nn.Module.named_parameters`). -/
def NNModule.named_parameters : NNModule → List (String × Int)
  | .node _ ps cs => ps ++ NNModuleList.named_parameters cs

def NNModuleList.named_parameters : NNModuleList → List (String × Int)
  | .nil => []
  | .cons m ms => m.named_parameters ++ ms.named_parameters
end

mutual
/-- Delete `_params_init_info` from a module and every nested submodule, as
the final loop of `init_weights` does over `self.modules()`. -/
def NNModule.strip : NNModule → NNModule
  | .node _ ps cs => .node none ps (NNModuleList.strip cs)

def NNModuleList.strip : NNModuleList → NNModuleList
  | .nil => .nil
  | .cons m ms => .cons m.strip ms.strip
end

mutual
/-- Whether no module in the tree carries a `_params_init_info` attribute. -/
def NNModule.infoFree : NNModule → Bool
  | .node i _ cs => i.isNone && NNModuleList.infoFree cs

def NNModuleList.infoFree : NNModuleList → Bool
  | .nil => true
  | .cons m ms => m.infoFree && ms.infoFree
end

/-- Attach `_params_init_info` to a module object; the attribute lives on
that object only, not on its children. -/
def NNModule.setInfo (i : InfoMap) : NNModule → NNModule
  | .node _ ps cs => .node (some i) ps cs

mutual
/-- The info-less view of a module tree: named parameters and structure
only. -/
inductive PTree : Type where
  | node (params : List (String × Int)) (children : PTreeList)

/-- Sibling list of info-less views. -/
inductive PTreeList : Type where
  | nil
  | cons (t : PTree) (ts : PTreeList)
end

mutual
/-- Forget the `_params_init_info` attributes of a module tree. -/
def NNModule.skeleton : NNModule → PTree
  | .node _ ps cs => .node ps (NNModuleList.skeleton cs)

def NNModuleList.skeleton : NNModuleList → PTreeList
  | .nil => .nil
  | .cons m ms => .cons m.skeleton ms.skeleton
end

/-- The module tree of a `BaseTranslationModel` as `init_weights` sees it:
the model object's own attribute slot and direct parameters, plus the
domain-keyed generator and (optional) discriminator dictionaries. -/
structure TMModules where
  selfInfo : Option InfoMap
  selfParams : List (String × Int)
  generators : List (String × NNModule)
  discriminators : Option (List (String × NNModule))

/-- `self.named_parameters()` over the whole model. -/
def TMModules.named_parameters (t : TMModules) : List (String × Int) :=
  t.selfParams
    ++ t.generators.flatMap (fun p => p.2.named_parameters)
    ++ (match t.discriminators with
        | none => []
        | some ds => ds.flatMap (fun p => p.2.named_parameters))

/-- The provenance note written for every parameter by `init_weights`. -/
def init_info_note : String :=
  "The value is the same before and after calling `init_weights` of BaseTranslationModel "

/-- Build `_params_init_info`: one record per named parameter holding the
note and the parameter's current mean. -/
def build_params_init_info (t : TMModules) : InfoMap :=
  t.named_parameters.map
    (fun p => (p.1, { init_info := init_info_note, tmp_mean_value := p.2 }))

/-- `BaseTranslationModel.init_weights`: build the tracking map, attach it
to the model object and to every per-domain generator and discriminator,
run each submodule's own initializer (`childInit` stands for the framework
call `gen.init_weights()` and may rewrite that submodule arbitrarily), then
walk `self.modules()` and delete the attribute wherever present. -/
def TMModules.init_weights (childInit : NNModule → NNModule) (t : TMModules) :
    TMModules :=
  let info := build_params_init_info t
  let t1 : TMModules :=
    { selfInfo := some info,
      selfParams := t.selfParams,
      generators :=
        t.generators.map (fun p => (p.1, childInit (p.2.setInfo info))),
      discriminators :=
        t.discriminators.map
          (fun ds => ds.map (fun p => (p.1, childInit (p.2.setInfo info)))) }
  { selfInfo := none,
    selfParams := t1.selfParams,
    generators := t1.generators.map (fun p => (p.1, p.2.strip)),
    discriminators :=
      t1.discriminators.map (fun ds => ds.map (fun p => (p.1, p.2.strip))) }

/-- Whether no module of the model tree retains `_params_init_info`. -/
def TMModules.infoFree (t : TMModules) : Bool :=
  t.selfInfo.isNone
    && t.generators.all (fun p => p.2.infoFree)
    && (match t.discriminators with
        | none => true
        | some ds => ds.all (fun p => p.2.infoFree))

/-- The info-less view of the whole model tree. -/
structure TMSkeleton where
  selfParams : List (String × Int)
  generators : List (String × PTree)
  discriminators : Option (List (String × PTree))

/-- Forget all `_params_init_info` attributes of the model tree. -/
def TMModules.skeleton (t : TMModules) : TMSkeleton :=
  { selfParams := t.selfParams,
    generators := t.generators.map (fun p => (p.1, p.2.skeleton)),
    discriminators :=
      t.discriminators.map (fun ds => ds.map (fun p => (p.1, p.2.skeleton))) }

end MMagic

namespace MMagic

/-- A concrete constructed model for the witnesses: identity generator over
natural-number tensors, domain `A` reachable, domains `A`, `B` related. -/
def exampleModel : BaseTranslationModel Nat Unit Unit :=
  { default_domain := "A",
    reachable_domains := ["A"],
    related_domains := ["A", "B"],
    generators := [("A", fun t _ => t)],
    discriminators := none,
    data_preprocessor := (),
    discriminator_steps := 1,
    disc_init_steps := 0,
    real_img_key := "real_img",
    loss_config := [] }

end MMagic

namespace MMEditApi

theorem lookup_eq_none_of_not_mem_keys {β : Type} {l : List (String × β)}
    {a : String} (h : a ∉ l.map Prod.fst) : l.lookup a = none := by
  rw [List.lookup_eq_none_iff]
  intro p hp
  simp only [bne_iff_ne, ne_eq]
  intro hcontra
  exact h (hcontra ▸ List.mem_map_of_mem Prod.fst hp)

theorem lookup_isSome_of_mem_keys {β : Type} {l : List (String × β)}
    {a : String} (h : a ∈ l.map Prod.fst) : (l.lookup a).isSome = true := by
  induction l with
  | nil => simp at h
  | cons p t ih =>
    simp only [List.map_cons, List.mem_cons] at h
    by_cases hk : a = p.1
    · simp [List.lookup, hk]
    · have hmem : a ∈ t.map Prod.fst := by
        rcases h with h | h
        · exact absurd h hk
        · exact h
      have hbeq : (a == p.1) = false := beq_eq_false_iff_ne.mpr hk
      simp [List.lookup, hbeq, ih hmem]

theorem kwargs_from_model_some {name ver : String} {e : ModelEntry}
    {v : VersionEntry}
    (h1 : get_model_config name = Except.ok e)
    (h2 : e.version.lookup ver = some v) :
    kwargs_from_model (some name) ver =
      Except.ok { type := some e.type,
                  config := some (os_path_join ("configs/") v.config),
                  ckpt := some v.ckpt } := by
  simp [kwargs_from_model, h1, h2, Bind.bind, Except.bind, Pure.pure,
    Except.pure]

theorem resolve_no_model (ver c k : String) :
    get_inferencer_kwargs none ver (some c) (some k) =
      Except.ok ({ type := none, config := some c, ckpt := some k }, []) := by
  simp [get_inferencer_kwargs, kwargs_from_model, Bind.bind, Except.bind,
    Pure.pure, Except.pure]

theorem resolve_catalog_only {name ver : String} {e : ModelEntry}
    {v : VersionEntry}
    (h1 : get_model_config name = Except.ok e)
    (h2 : e.version.lookup ver = some v) :
    get_inferencer_kwargs (some name) ver none none =
      Except.ok ({ type := some e.type,
                   config := some (os_path_join ("configs/") v.config),
                   ckpt := some v.ckpt }, []) := by
  simp [get_inferencer_kwargs, kwargs_from_model_some h1 h2, Bind.bind,
    Except.bind, Pure.pure, Except.pure]

theorem resolve_config_override {name ver : String} {e : ModelEntry}
    {v : VersionEntry} (c : String)
    (h1 : get_model_config name = Except.ok e)
    (h2 : e.version.lookup ver = some v) :
    get_inferencer_kwargs (some name) ver (some c) none =
      Except.ok ({ type := some e.type, config := some c,
                   ckpt := some v.ckpt },
                 [config_override_warning (some name) c]) := by
  simp [get_inferencer_kwargs, kwargs_from_model_some h1 h2, Bind.bind,
    Except.bind, Pure.pure, Except.pure]

theorem resolve_ckpt_override {name ver : String} {e : ModelEntry}
    {v : VersionEntry} (k : String)
    (h1 : get_model_config name = Except.ok e)
    (h2 : e.version.lookup ver = some v) :
    get_inferencer_kwargs (some name) ver none (some k) =
      Except.ok ({ type := some e.type,
                   config := some (os_path_join ("configs/") v.config),
                   ckpt := some k },
                 [ckpt_override_warning (some name) k]) := by
  simp [get_inferencer_kwargs, kwargs_from_model_some h1 h2, Bind.bind,
    Except.bind, Pure.pure, Except.pure]

theorem resolve_both_override {name ver : String} {e : ModelEntry}
    {v : VersionEntry} (c k : String)
    (h1 : get_model_config name = Except.ok e)
    (h2 : e.version.lookup ver = some v) :
    get_inferencer_kwargs (some name) ver (some c) (some k) =
      Except.ok ({ type := some e.type, config := some c, ckpt := some k },
                 [config_override_warning (some name) c,
                  ckpt_override_warning (some name) k]) := by
  simp [get_inferencer_kwargs, kwargs_from_model_some h1 h2, Bind.bind,
    Except.bind, Pure.pure, Except.pure]

end MMEditApi

namespace MMagic

theorem lookup_map_const {β : Type} {a : String} {l : List String} {c : β}
    (h : a ∈ l) : (l.map (fun d => (d, c))).lookup a = some c := by
  induction l with
  | nil => simp at h
  | cons x t ih =>
    by_cases hx : a = x
    · simp [List.lookup, hx]
    · have hbeq : (a == x) = false := beq_eq_false_iff_ne.mpr hx
      have hmem : a ∈ t := by
        rcases List.mem_cons.mp h with h | h
        · exact absurd h hx
        · exact h
      simp [List.lookup, hbeq, ih hmem]

mutual
theorem NNModule.strip_infoFree : ∀ m : NNModule, m.strip.infoFree = true
  | .node _ ps cs => by
    simp [NNModule.strip, NNModule.infoFree, NNModuleList.strip_infoFree_list cs]

theorem NNModuleList.strip_infoFree_list :
    ∀ l : NNModuleList, l.strip.infoFree = true
  | .nil => rfl
  | .cons m ms => by
    simp [NNModuleList.strip, NNModuleList.infoFree,
      NNModule.strip_infoFree m, NNModuleList.strip_infoFree_list ms]
end

mutual
theorem NNModule.skeleton_strip : ∀ m : NNModule, m.strip.skeleton = m.skeleton
  | .node _ ps cs => by
    simp [NNModule.strip, NNModule.skeleton, NNModuleList.skeleton_strip_list cs]

theorem NNModuleList.skeleton_strip_list :
    ∀ l : NNModuleList, l.strip.skeleton = l.skeleton
  | .nil => rfl
  | .cons m ms => by
    simp [NNModuleList.strip, NNModuleList.skeleton,
      NNModule.skeleton_strip m, NNModuleList.skeleton_strip_list ms]
end

theorem NNModule.skeleton_setInfo (i : InfoMap) (m : NNModule) :
    (m.setInfo i).skeleton = m.skeleton := by
  cases m with
  | node _ ps cs => simp [NNModule.setInfo, NNModule.skeleton]

end MMagic

namespace MMEditApi

/-- C3: an explicit config (resp. checkpoint) overwrites a value already
resolved from a named model, and that overwrite emits one non-fatal warning
whose text names the original model and the override; each result field is
present only if set by lookup or override, so resolving with explicit
config and checkpoint but no model name returns exactly those two fields,
with no type field and no warning emitted. -/
theorem override_and_exact_fields_spec :
    (∀ (name ver c : String) (e : ModelEntry) (v : VersionEntry),
       get_model_config name = Except.ok e →
       e.version.lookup ver = some v →
       ∃ kw ws, get_inferencer_kwargs (some name) ver (some c) none =
           Except.ok (kw, ws) ∧
         kw.config = some c ∧
         ws = [config_override_warning (some name) c] ∧
         (∃ s, config_override_warning (some name) c = name ++ s) ∧
         (∃ s, config_override_warning (some name) c = s ++ c)) ∧
    (∀ (name ver k : String) (e : ModelEntry) (v : VersionEntry),
       get_model_config name = Except.ok e →
       e.version.lookup ver = some v →
       ∃ kw ws, get_inferencer_kwargs (some name) ver none (some k) =
           Except.ok (kw, ws) ∧
         kw.ckpt = some k ∧
         ws = [ckpt_override_warning (some name) k] ∧
         (∃ s, ckpt_override_warning (some name) k = name ++ s) ∧
         (∃ s, ckpt_override_warning (some name) k = s ++ k)) ∧
    (∀ ver c k : String,
       get_inferencer_kwargs none ver (some c) (some k) =
         Except.ok ({ type := none, config := some c, ckpt := some k }, [])) := by
  refine ⟨?_, ?_, ?_⟩
  · intro name ver c e v h1 h2
    refine ⟨_, _, resolve_config_override c h1 h2, rfl, rfl, ?_, ?_⟩
    · exact ⟨"\x27s default config is overridden by " ++ c,
        by simp [config_override_warning, optStr, String.append_assoc]⟩
    · exact ⟨name ++ "\x27s default config is overridden by ",
        by simp [config_override_warning, optStr]⟩
  · intro name ver k e v h1 h2
    refine ⟨_, _, resolve_ckpt_override k h1 h2, rfl, rfl, ?_, ?_⟩
    · exact ⟨"\x27s default checkpoint is overridden by " ++ k,
        by simp [ckpt_override_warning, optStr, String.append_assoc]⟩
    · exact ⟨name ++ "\x27s default checkpoint is overridden by ",
        by simp [ckpt_override_warning, optStr]⟩
  · intro ver c k
    exact resolve_no_model ver c k

/-- Witness for C3 at model `pix2pix`, version `a`, override `custom.py`. -/
theorem override_and_exact_fields_spec_witness :
    ∃ kw ws,
      get_inferencer_kwargs (some ("pix2pix")) ("a") (some ("custom.py"))
          none = Except.ok (kw, ws) ∧
      kw.config = some ("custom.py") ∧
      ws = [config_override_warning (some ("pix2pix")) ("custom.py")] ∧
      (∃ s, config_override_warning (some ("pix2pix")) ("custom.py") =
        "pix2pix" ++ s) ∧
      (∃ s, config_override_warning (some ("pix2pix")) ("custom.py") =
        s ++ "custom.py") :=
  override_and_exact_fields_spec.1 ("pix2pix") ("a") ("custom.py")
    { type := "translation",
      version :=
        [("a",
          { config := "pix2pix/pix2pix_vanilla-unet-bn_1xb1-80kiters_facades.py",
            ckpt := "ckpt/translation/pix2pix_vanilla_unet_bn_1x1_80k_facades_20210902_170442-c0958d50.pth" })] }
    { config := "pix2pix/pix2pix_vanilla-unet-bn_1xb1-80kiters_facades.py",
      ckpt := "ckpt/translation/pix2pix_vanilla_unet_bn_1x1_80k_facades_20210902_170442-c0958d50.pth" }
    (by decide) (by decide)

/-- C4: resolving a name absent from the catalog raises an error whose
message includes the offending name; every catalog key resolves without
such an error. -/
theorem unsupported_model_spec :
    (∀ name : String, name ∉ model_dict.map Prod.fst →
       get_model_config name =
         Except.error ("Model " ++ name ++ " is not supported.")) ∧
    (∀ name : String, name ∉ model_dict.map Prod.fst →
       ∃ pre suf, get_model_config name = Except.error (pre ++ (name ++ suf))) ∧
    (∀ name : String, name ∈ model_dict.map Prod.fst →
       (get_model_config name).toOption.isSome = true) := by
  refine ⟨?_, ?_, ?_⟩
  · intro name h
    simp [get_model_config, lookup_eq_none_of_not_mem_keys h]
  · intro name h
    refine ⟨"Model ", " is not supported.", ?_⟩
    simp [get_model_config, lookup_eq_none_of_not_mem_keys h,
      String.append_assoc]
  · intro name h
    rcases Option.isSome_iff_exists.mp (lookup_isSome_of_mem_keys h) with ⟨e, he⟩
    simp [get_model_config, he, Except.toOption]

/-- Witness for C4 at the absent name `nonexistent_model` and the present
name `gca`. -/
theorem unsupported_model_spec_witness :
    get_model_config ("nonexistent_model") =
      Except.error ("Model " ++ "nonexistent_model" ++ " is not supported.") ∧
    (get_model_config ("gca")).toOption.isSome = true :=
  ⟨unsupported_model_spec.1 ("nonexistent_model") (by decide),
   unsupported_model_spec.2.2 ("gca") (by decide)⟩

/-- C7: resolving `pix2pix` at the default version `a` yields type
`translation`, a config path ending in the facades pix2pix config file and
a checkpoint path ending in the facades checkpoint file. -/
theorem pix2pix_resolve_spec :
    ∃ kw : Kwargs,
      get_inferencer_kwargs (some ("pix2pix")) ("a") none none =
        Except.ok (kw, []) ∧
      kw.type = some ("translation") ∧
      (∃ p, kw.config =
        some (p ++ "pix2pix_vanilla-unet-bn_1xb1-80kiters_facades.py")) ∧
      (∃ p, kw.ckpt = some (p ++ "facades_20210902_170442-c0958d50.pth")) := by
  refine ⟨{ type := some ("translation"),
            config := some ("configs/pix2pix/pix2pix_vanilla-unet-bn_1xb1-80kiters_facades.py"),
            ckpt := some ("ckpt/translation/pix2pix_vanilla_unet_bn_1x1_80k_facades_20210902_170442-c0958d50.pth") },
          by decide, rfl, ⟨"configs/pix2pix/", by decide⟩,
          ⟨"ckpt/translation/pix2pix_vanilla_unet_bn_1x1_80k_", by decide⟩⟩

/-- C9: a catalog-resolved config is the fixed component `configs/`
path-joined with the relative path stored in the catalog, while explicitly
supplied config and checkpoint overrides are returned verbatim with no
added path component — the two sources are treated asymmetrically. -/
theorem catalog_prefix_asymmetry_spec :
    (∀ (name ver : String) (e : ModelEntry) (v : VersionEntry),
       get_model_config name = Except.ok e →
       e.version.lookup ver = some v →
       get_inferencer_kwargs (some name) ver none none =
         Except.ok ({ type := some e.type,
                      config := some (os_path_join ("configs/") v.config),
                      ckpt := some v.ckpt }, [])) ∧
    (∀ (name ver c k : String) (e : ModelEntry) (v : VersionEntry),
       get_model_config name = Except.ok e →
       e.version.lookup ver = some v →
       ∃ ws, get_inferencer_kwargs (some name) ver (some c) (some k) =
         Except.ok ({ type := some e.type, config := some c,
                      ckpt := some k }, ws)) ∧
    (∀ ver c k : String,
       get_inferencer_kwargs none ver (some c) (some k) =
         Except.ok ({ type := none, config := some c, ckpt := some k }, [])) := by
  refine ⟨?_, ?_, ?_⟩
  · intro name ver e v h1 h2
    exact resolve_catalog_only h1 h2
  · intro name ver c k e v h1 h2
    exact ⟨_, resolve_both_override c k h1 h2⟩
  · intro ver c k
    exact resolve_no_model ver c k

/-- Witness for C9 at model `esrgan`, version `a`. -/
theorem catalog_prefix_asymmetry_spec_witness :
    get_inferencer_kwargs (some ("esrgan")) ("a") none none =
      Except.ok ({ type := some ("restoration"),
                   config := some (os_path_join ("configs/")
                     ("esrgan/esrgan_psnr-x4c64b23g32_1xb16-1000k_div2k.py")),
                   ckpt := some ("ckpt/restoration/esrgan_psnr_x4c64b23g32_1x16_1000k_div2k_20200420-bf5c993c.pth") },
                 []) :=
  catalog_prefix_asymmetry_spec.1 ("esrgan") ("a")
    { type := "restoration",
      version :=
        [("a",
          { config := "esrgan/esrgan_psnr-x4c64b23g32_1xb16-1000k_div2k.py",
            ckpt := "ckpt/restoration/esrgan_psnr_x4c64b23g32_1x16_1000k_div2k_20200420-bf5c993c.pth" })] }
    { config := "esrgan/esrgan_psnr-x4c64b23g32_1xb16-1000k_div2k.py",
      ckpt := "ckpt/restoration/esrgan_psnr_x4c64b23g32_1x16_1000k_div2k_20200420-bf5c993c.pth" }
    (by decide) (by decide)

/-- C10: every catalog entry's version table contains the default label `a`,
so resolving any catalog model at the default version never hits the
unguarded version-key lookup; the `basicvsr` default-version checkpoint is
present but equal to the empty string. -/
theorem catalog_default_version_spec :
    (model_dict.all (fun p => (p.2.version.lookup ("a")).isSome)) = true ∧
    (model_dict.all (fun p =>
       ((get_inferencer_kwargs (some p.1) ("a") none none).toOption).isSome))
      = true ∧
    (get_model_config ("basicvsr")).toOption.bind
        (fun e => (e.version.lookup ("a")).map (fun v => v.ckpt)) =
      some ("") := by
  refine ⟨by decide, by decide, by decide⟩

end MMEditApi

namespace MMagic

/-- C2: construction of the translation model is rejected (assertion
failure) exactly when `default_domain` is not among the reachable domains
or the reachable domains are not contained in the related ones, and
succeeds exactly when both invariants hold. -/
theorem construction_invariants_spec {α κ π σ : Type} (build : σ → Net α κ)
    (generator : σ) (discriminator : Option σ) (dd : String)
    (reach rel : List String) (dp : π) (dsteps disteps : Nat)
    (rik : String) (lc : Option (List (String × Int))) :
    (mkBaseTranslationModel build generator discriminator dd reach rel dp
        dsteps disteps rik lc).isSome ↔
      (dd ∈ reach ∧ ∀ d ∈ reach, d ∈ rel) := by
  by_cases h : dd ∈ reach ∧ ∀ d ∈ reach, d ∈ rel
  · simp [mkBaseTranslationModel, h]
  · simp [mkBaseTranslationModel, h]

/-- C5: `forward_train` returns the input image unchanged as source and the
translation as target, and `forward_test` is exactly `forward_train` with
both fields moved to host memory — the move is the only behavioral
difference between the two modes. -/
theorem forward_test_host_move_spec {α κ π : Type}
    (m : BaseTranslationModel α κ π) (img : Tensor α)
    (target_domain : Option String) (kwargs : κ) :
    m.forward_train img target_domain kwargs =
      (m.translation img target_domain kwargs).map
        (fun target => { source := img, target := target }) ∧
    m.forward_test img target_domain kwargs =
      (m.forward_train img target_domain kwargs).map
        (fun r => { source := r.source.cpu, target := r.target.cpu }) := by
  constructor
  · rfl
  · cases h : m.translation img target_domain kwargs <;>
      simp [BaseTranslationModel.forward_train,
        BaseTranslationModel.forward_test, h, Except.map]

/-- C8: `get_other_domains d` is the set of related domains with `d`
removed, for every `d`; when `d` is not a related domain the result is the
set of related domains unchanged. -/
theorem get_other_domains_spec {α κ π : Type}
    (m : BaseTranslationModel α κ π) (d : String) :
    (∀ x, x ∈ m.get_other_domains d ↔ x ∈ m.related_domains ∧ x ≠ d) ∧
    (d ∉ m.related_domains →
       m.get_other_domains d = m.related_domains.toFinset) := by
  constructor
  · intro x
    simp [BaseTranslationModel.get_other_domains, List.mem_toFinset,
      Finset.mem_sdiff, Finset.mem_singleton]
  · intro hd
    ext x
    simp only [BaseTranslationModel.get_other_domains, Finset.mem_sdiff,
      Finset.mem_singleton, List.mem_toFinset]
    constructor
    · intro hx
      exact hx.1
    · intro hx
      exact ⟨hx, fun hcontra => hd (hcontra ▸ hx)⟩

/-- Witness for C8: removing the non-related domain `C` leaves the related
set of the example model unchanged. -/
theorem get_other_domains_spec_witness :
    exampleModel.get_other_domains ("C") =
      exampleModel.related_domains.toFinset :=
  (get_other_domains_spec exampleModel ("C")).2 (by decide)

/-- C1: on any constructed model, `translation` with no target domain
forwards the image through the generator selected for the default domain
(succeeding with the generator built from the shared specification); for
any domain `X` outside the reachable list, the generator lookup, the
discriminator lookup and `translation` all fail with the
`DomainNotReachable` assertion message, which contains both `X` and the
rendered reachable-domain list. -/
theorem translation_default_and_unreachable_spec {α κ π σ : Type}
    (build : σ → Net α κ) (generator : σ) (discriminator : Option σ)
    (dd : String) (reach rel : List String) (dp : π)
    (dsteps disteps : Nat) (rik : String)
    (lc : Option (List (String × Int))) (m : BaseTranslationModel α κ π)
    (hm : mkBaseTranslationModel build generator discriminator dd reach rel
      dp dsteps disteps rik lc = some m) :
    (∀ (img : Tensor α) (kw : κ),
       m.translation img none kw =
         (m.get_target_generator m.default_domain).map
           (fun g => g img kw)) ∧
    (∀ (img : Tensor α) (kw : κ),
       m.translation img none kw = Except.ok (build generator img kw)) ∧
    (∀ X : String, X ∉ m.reachable_domains →
       m.get_target_generator X =
         Except.error (not_reachable_msg X m.reachable_domains) ∧
       m.get_target_discriminator X =
         Except.error (not_reachable_msg X m.reachable_domains) ∧
       (∀ (img : Tensor α) (kw : κ),
          m.translation img (some X) kw =
            Except.error (not_reachable_msg X m.reachable_domains)) ∧
       (∃ s, not_reachable_msg X m.reachable_domains = X ++ s) ∧
       (∃ s, not_reachable_msg X m.reachable_domains =
         s ++ pyListRepr m.reachable_domains)) := by
  by_cases h : dd ∈ reach ∧ ∀ d ∈ reach, d ∈ rel
  case neg => simp [mkBaseTranslationModel, h] at hm
  case pos =>
  unfold mkBaseTranslationModel at hm
  rw [if_pos h, Option.some.injEq] at hm
  subst hm
  refine ⟨?_, ?_, ?_⟩
  · intro img kw
    rfl
  · intro img kw
    simp [BaseTranslationModel.translation,
      BaseTranslationModel.get_target_generator,
      BaseTranslationModel.is_domain_reachable, get_module, h.1,
      lookup_map_const h.1, Except.map]
  · intro X hX
    have hX2 : X ∉ reach := hX
    refine ⟨?_, ?_, ?_, ?_, ?_⟩
    · simp [BaseTranslationModel.get_target_generator,
        BaseTranslationModel.is_domain_reachable, hX2]
    · simp [BaseTranslationModel.get_target_discriminator,
        BaseTranslationModel.is_domain_reachable, hX2]
    · intro img kw
      simp [BaseTranslationModel.translation,
        BaseTranslationModel.get_target_generator,
        BaseTranslationModel.is_domain_reachable, hX2, Except.map]
    · exact ⟨" domain is not reachable, available domain list is            "
        ++ pyListRepr reach, by simp [not_reachable_msg, String.append_assoc]⟩
    · exact ⟨X ++ " domain is not reachable, available domain list is            ",
        rfl⟩

/-- Witness for C1: the example model translates with no target through the
default domain `A`, and the lookup for the unreachable domain `C` fails
with the assertion message. -/
theorem translation_default_and_unreachable_spec_witness :
    (exampleModel.translation { data := 7, device := Device.cuda } none () =
       Except.ok { data := 7, device := Device.cuda }) ∧
    exampleModel.get_target_generator ("C") =
      Except.error (not_reachable_msg ("C") exampleModel.reachable_domains) := by
  have h := translation_default_and_unreachable_spec
    (fun _ : Unit => (fun t _ => t)) () none ("A") (["A"]) (["A", "B"]) ()
    1 0 ("real_img") none exampleModel (by rfl)
  exact ⟨h.2.1 _ (), (h.2.2 ("C") (by decide)).1⟩

/-- C6: after `init_weights` completes — whatever the per-submodule
initializers do — no module of the tree (the model itself, every generator
and discriminator, and all their nested submodules) retains the
`_params_init_info` attribute; and the attach/detach bookkeeping alone
(submodule initializers factored out as the identity) changes nothing else:
the info-less view of the tree is untouched. -/
theorem init_weights_cleanup_spec (childInit : NNModule → NNModule)
    (t : TMModules) :
    (t.init_weights childInit).infoFree = true ∧
    (t.init_weights id).skeleton = t.skeleton := by
  constructor
  · simp only [TMModules.init_weights, TMModules.infoFree, List.map_map,
      Option.isNone_none, Bool.true_and]
    cases htd : t.discriminators with
    | none =>
        simp [List.all_eq_true, NNModule.strip_infoFree]
    | some ds =>
        simp [List.all_eq_true, List.map_map, NNModule.strip_infoFree]
  · simp only [TMModules.init_weights, TMModules.skeleton, List.map_map]
    cases htd : t.discriminators with
    | none =>
        simp [List.map_map, Function.comp, NNModule.skeleton_strip,
          NNModule.skeleton_setInfo]
    | some ds =>
        simp [List.map_map, Function.comp, NNModule.skeleton_strip,
          NNModule.skeleton_setInfo]

end MMagic

namespace MMagic

/-- Witness for C2: the spec's failing triple (`default_domain = "B"`,
reachable `["A"]`) is rejected, as the equivalence demands. -/
theorem construction_invariants_spec_witness :
    (mkBaseTranslationModel
        (fun _ : Unit => (fun (t : Tensor Nat) (_ : Unit) => t)) () none
        ("B") (["A"]) (["A"]) () 1 0 ("real_img") none).isSome ↔
      ("B" ∈ (["A"] : List String) ∧
        ∀ d ∈ (["A"] : List String), d ∈ (["A"] : List String)) :=
  construction_invariants_spec
    (fun _ : Unit => (fun (t : Tensor Nat) (_ : Unit) => t)) () none
    ("B") (["A"]) (["A"]) () 1 0 ("real_img") none

/-- Witness for C5 on the example model and a device-resident input. -/
theorem forward_test_host_move_spec_witness :
    exampleModel.forward_test { data := 3, device := Device.cuda } none () =
      (exampleModel.forward_train { data := 3, device := Device.cuda }
          none ()).map
        (fun r => { source := r.source.cpu, target := r.target.cpu }) :=
  (forward_test_host_move_spec exampleModel
    { data := 3, device := Device.cuda } none ()).2

/-- Witness for C6 on a one-generator module tree. -/
theorem init_weights_cleanup_spec_witness :
    (TMModules.init_weights id
        { selfInfo := none, selfParams := [("w", 2)],
          generators := [("A", NNModule.node none [("g", 1)] NNModuleList.nil)],
          discriminators := none }).infoFree = true :=
  (init_weights_cleanup_spec id
    { selfInfo := none, selfParams := [("w", 2)],
      generators := [("A", NNModule.node none [("g", 1)] NNModuleList.nil)],
      discriminators := none }).1

end MMagic
